import Mathlib

/-!
Shallow embedding of the speech-synthesis selection and response-normalization
pipeline of `src/app.py` (Streamlit image-to-story application).

Modelling conventions:
* Python strings are Lean `String`s; Python string truthiness (`if s:`) is
  `s != ""`, and `str.startswith` is prefix testing on the character list.
* The ElevenLabs client object is modelled by `Option String` (the API key it
  was constructed with); `none` models the Python `None`.
* Calls into external services (Gemini, ElevenLabs `generate`, voice listing,
  gTTS) are modelled by `Except String α` parameters supplied by the
  environment: `Except.error e` models the call raising an exception `e`,
  `Except.ok v` models it returning `v`.
* Audio byte buffers are `List Nat`.
* Streamlit diagnostics (`st.error`, `st.warning`, `st.info`) are collected in
  a `List Diag`.
-/

/-- A Streamlit diagnostic message: `st.error`, `st.warning` or `st.info`. -/
inductive Diag where
  | error (msg : String)
  | warning (msg : String)
  | info (msg : String)
deriving DecidableEq

/-- Python string truthiness: `if s:` is true exactly when `s` is non-empty. -/
def pyTruthy (s : String) : Bool := s != ""

/-- Python `s.startswith(p)`, modelled as prefix testing on the char lists
(kernel-reducible, unlike `String.startsWith`). -/
def pyStartsWith (s p : String) : Bool := p.data.isPrefixOf s.data

/-- Truthiness of `selected_voice : Option String` in `app.py` line 307:
`None` is falsy, a string is truthy iff non-empty. -/
def pyTruthyStrOpt (v : Option String) : Bool :=
  match v with
  | none => false
  | some s => s != ""

/-- The environment seen by the startup configuration block of `app.py`
(lines 36-56): the retrieved `ELEVENLABS_API_KEY` secret (`""` when absent),
whether the `ElevenLabs(api_key=...)` constructor succeeds, and whether the
startup probe `elevenlabs_client.voices.get_all()` succeeds. -/
structure ElevenSetup where
  apiKey : String
  clientInitOk : Bool
  probeOk : Bool
deriving DecidableEq

/-- The process-global state established by the startup block of `app.py`
lines 36-56: `elevenlabs_client` (the constructed client or `None`) and the
`elevenlabs_configured` flag. -/
structure ElevenStartup where
  elevenlabs_client : Option String
  elevenlabs_configured : Bool
  diags : List Diag
deriving DecidableEq

/-- Embedding of `app.py` lines 36-56.  `elevenlabs_client` starts as `None`;
if the key is present the client is constructed (the assignment happens before
the probe), then `voices.get_all()` is probed.  A probe failure is caught: it
sets `elevenlabs_configured = False` and emits `st.error`, but it does NOT
reset `elevenlabs_client` to `None`. -/
def initEleven (s : ElevenSetup) : ElevenStartup :=
  if s.apiKey = "" then
    { elevenlabs_client := none, elevenlabs_configured := false, diags := [] }
  else if s.clientInitOk = false then
    { elevenlabs_client := none, elevenlabs_configured := false,
      diags := [Diag.error "ElevenLabs client initialization or test voice fetch failed"] }
  else if s.probeOk = false then
    { elevenlabs_client := some s.apiKey, elevenlabs_configured := false,
      diags := [Diag.error "ElevenLabs client initialization or test voice fetch failed"] }
  else
    { elevenlabs_client := some s.apiKey, elevenlabs_configured := true, diags := [] }

/-- The two speech-synthesis backends. -/
inductive Backend where
  | primary
  | fallback
deriving DecidableEq

/-- Embedding of the backend selection test at `app.py` line 307:
`if elevenlabs_client and selected_voice:` — the client object is truthy iff
it is not `None`, the voice iff it is a non-empty string. -/
def chooseBackend (elevenlabs_client : Option String)
    (selected_voice : Option String) : Backend :=
  if elevenlabs_client.isSome && pyTruthyStrOpt selected_voice then Backend.primary
  else Backend.fallback

/-- A voice record returned by the ElevenLabs voice listing.  `name = none`
models a record object lacking a `.name` attribute. -/
structure VoiceRec where
  name : Option String
deriving DecidableEq

/-- The value returned by `elevenlabs_client.voices.get_all()`, in the shapes
`app.py` lines 214-228 distinguish: a `GetVoicesResponse` object with a
`voices` list attribute, a tuple whose second element is the record list, a
bare list, or anything else. -/
inductive VoicesResult where
  | response (voices : List VoiceRec)
  | tup (fst : String) (snd : List VoiceRec)
  | bare (voices : List VoiceRec)
  | unknown (descr : String)
deriving DecidableEq

/-- Embedding of the shape dispatch at `app.py` lines 214-228: extract the
list of voice record objects (`voices_list_objects`) and the `st.info` /
`st.warning` diagnostics of each branch. -/
def extractVoiceObjects : VoicesResult → List VoiceRec × List Diag
  | VoicesResult.response vs => (vs, [])
  | VoicesResult.tup _ vs =>
      (vs, [Diag.info "Handled older ElevenLabs voices response tuple structure."])
  | VoicesResult.bare vs =>
      (vs, [Diag.info "Handled ElevenLabs voices response as a direct list."])
  | VoicesResult.unknown d =>
      ([], [Diag.warning ("Unexpected structure from elevenlabs_client.voices.get_all(): "
              ++ d ++ ". Cannot list voices.")])

/-- Embedding of the name-extraction loop at `app.py` lines 231-249: a record
with a `.name` attribute contributes its name; a record without one is skipped
with a per-item `st.warning`. -/
def extractNames : List VoiceRec → List String × List Diag
  | [] => ([], [])
  | r :: rs =>
    let rest := extractNames rs
    match r.name with
    | some n => (n :: rest.1, rest.2)
    | none =>
        (rest.1,
         Diag.warning "Item in voice list has unexpected structure (no .name attribute). Skipping."
           :: rest.2)

/-- Embedding of `app.py` lines 253-254: `voice_names = list(set(voice_names));
voice_names.sort()` — deduplicate with set semantics, then sort ascending. -/
def normalizeNames (names : List String) : List String :=
  List.insertionSort (fun a b => a ≤ b) names.dedup

/-- The normalized voice-name list obtained from a voice-listing result. -/
def voiceNamesOf (r : VoicesResult) : List String :=
  normalizeNames (extractNames (extractVoiceObjects r).1).1

/-- Outcome of the voice-options block of `app.py` lines 209-264:
the selected voice, the normalized name list, and the diagnostics. -/
structure VoiceOptions where
  selected : Option String
  names : List String
  diags : List Diag
deriving DecidableEq

/-- Embedding of the voice-catalog resolver, `app.py` lines 209-264.  The
argument is the behavior of the `voices.get_all()` call: `Except.error e`
models the call (or subsequent processing) raising `e`, which the `except`
at line 261 catches, falling back to the default voice `"Rachel"`.  When the
normalized name list is non-empty, `st.selectbox(..., index=0)` initially
selects its first entry; when it is empty, the default `"Rachel"` is used with
an `st.warning`. -/
def resolveVoices (fetch : Except String VoicesResult) : VoiceOptions :=
  match fetch with
  | Except.error e =>
      { selected := some "Rachel", names := [],
        diags := [Diag.error ("Could not fetch or process ElevenLabs voices using client: " ++ e)] }
  | Except.ok res =>
      let objs := extractVoiceObjects res
      let ext := extractNames objs.1
      let names := normalizeNames ext.1
      if names = [] then
        { selected := some "Rachel", names := [],
          diags := objs.2 ++ ext.2 ++
            [Diag.warning "No usable ElevenLabs voices found via API or extraction failed. Using default Rachel (may fail if not available)."] }
      else
        { selected := names.head?, names := names, diags := objs.2 ++ ext.2 }

/-- The `VoiceSettings` object of the ElevenLabs SDK, as constructed at
`app.py` lines 120-123.  Slider values are modelled as rationals (the code
performs no arithmetic on them). -/
structure VoiceSettings where
  stability : ℚ
  similarity_boost : ℚ
deriving DecidableEq

/-- The `generate_params` dictionary passed to `elevenlabs_client.generate`
(`app.py` lines 109-125): text, voice, a fixed model identifier, and an
optional `VoiceSettings` payload. -/
structure GenerateParams where
  text : String
  voice : String
  model : String
  voice_settings : Option VoiceSettings
deriving DecidableEq

/-- Embedding of `app.py` lines 109-125.  `voice_settings` is a Python dict
modelled as an association list; `none` models passing `None`.  Following
Python truthiness, the settings payload is built only when the dict is present
and non-empty; `dict.get(key, default)` is `(lookup key).getD default`.  The
`"stability"` entry feeds the `stability` field and the `"clarity"` entry
feeds the `similarity_boost` field, with defaults `0.5` and `0.75`. -/
def buildGenerateParams (text voice : String)
    (voice_settings : Option (List (String × ℚ))) : GenerateParams :=
  match voice_settings with
  | some d =>
      if d = [] then
        { text := text, voice := voice, model := "eleven_multilingual_v2", voice_settings := none }
      else
        { text := text, voice := voice, model := "eleven_multilingual_v2",
          voice_settings := some
            { stability := (d.lookup "stability").getD (0.5 : ℚ),
              similarity_boost := (d.lookup "clarity").getD (0.75 : ℚ) } }
  | none =>
      { text := text, voice := voice, model := "eleven_multilingual_v2", voice_settings := none }

/-- The value produced by `elevenlabs_client.generate` when it does not raise:
either a chunk-iterable stream of byte chunks, or a non-iterable value
(the `hasattr(audio_stream, an iter method)` check at `app.py` line 134). -/
inductive GenOut where
  | stream (chunks : List (List Nat))
  | notIterable
deriving DecidableEq

/-- Environment of one execution of `convert_text_to_speech_elevenlabs`:
the behavior of the `generate` call, the behavior of the `temp_file.write`
call inside the `NamedTemporaryFile` block, and the file name the
`NamedTemporaryFile` allocates. -/
structure ElevenEnv where
  generateOutcome : Except String GenOut
  writeOutcome : Except String Unit
  tmpName : String

/-- Outcome of one execution of `convert_text_to_speech_elevenlabs`:
the returned value (`none` models returning `None`), any exception escaping
the function (`raised`), whether `generate` was invoked and with which
parameters, the temporary files still existing after the function returns,
and the diagnostics emitted. -/
structure SynthOutcome where
  result : Option (List Nat)
  raised : Option String
  generateCalled : Bool
  sentParams : Option GenerateParams
  tempLive : List String
  diags : List Diag
deriving DecidableEq

/-- Embedding of `convert_text_to_speech_elevenlabs`, `app.py` lines 102-151.
The guard at line 105 returns `None` when the text is empty or the client is
`None`, before any backend call.  Inside the `try`: `generate` is invoked with
the built parameters; an exception is caught at line 149 (diagnostic, return
`None`).  A non-iterable return value yields a diagnostic and `None`.
Otherwise the chunks are joined, staged to a `NamedTemporaryFile` created with
`delete=False`, and the file is unlinked after the `with` block.  If the write
inside the `with` block raises, the exception is caught at line 149 but the
unlink at line 146 is never reached, so the staged file remains on disk. -/
def convert_text_to_speech_elevenlabs (text voice : String)
    (voice_settings : Option (List (String × ℚ)))
    (elevenlabs_client : Option String) (env : ElevenEnv) : SynthOutcome :=
  if text = "" ∨ elevenlabs_client = none then
    { result := none, raised := none, generateCalled := false, sentParams := none,
      tempLive := [], diags := [] }
  else
    let params := buildGenerateParams text voice voice_settings
    match env.generateOutcome with
    | Except.error e =>
        { result := none, raised := none, generateCalled := true, sentParams := some params,
          tempLive := [],
          diags := [Diag.error ("An error occurred during ElevenLabs speech conversion: " ++ e)] }
    | Except.ok GenOut.notIterable =>
        { result := none, raised := none, generateCalled := true, sentParams := some params,
          tempLive := [],
          diags := [Diag.error "ElevenLabs generate did not return an iterable stream."] }
    | Except.ok (GenOut.stream chunks) =>
        match env.writeOutcome with
        | Except.error e =>
            { result := none, raised := none, generateCalled := true, sentParams := some params,
              tempLive := [env.tmpName],
              diags := [Diag.error ("An error occurred during ElevenLabs speech conversion: " ++ e)] }
        | Except.ok _ =>
            { result := some chunks.flatten, raised := none, generateCalled := true,
              sentParams := some params, tempLive := [], diags := [] }

/-- Environment of one execution of `convert_text_to_speech_gtts`: the
behavior of the gTTS synthesis (constructor, `write_to_fp` and buffer read),
`Except.ok` carrying the produced MP3 bytes. -/
structure GttsEnv where
  gttsOutcome : Except String (List Nat)

/-- Outcome of one execution of `convert_text_to_speech_gtts`. -/
structure GttsOutcome where
  result : Option (List Nat)
  raised : Option String
  engineCalled : Bool
  diags : List Diag
deriving DecidableEq

/-- Embedding of `convert_text_to_speech_gtts`, `app.py` lines 153-165:
empty text returns `None` before the engine is invoked; any exception from
the engine is caught with a diagnostic and `None` is returned. -/
def convert_text_to_speech_gtts (text : String) (env : GttsEnv) : GttsOutcome :=
  if text = "" then
    { result := none, raised := none, engineCalled := false, diags := [] }
  else
    match env.gttsOutcome with
    | Except.error e =>
        { result := none, raised := none, engineCalled := true,
          diags := [Diag.error ("An error occurred during gTTS conversion: " ++ e)] }
    | Except.ok bs =>
        { result := some bs, raised := none, engineCalled := true, diags := [] }

/-- Embedding of `generate_story_from_image`, `app.py` lines 60-99, with the
Gemini call opaque: `configured` is `gemini_api_configured`; the call behavior
is `Except.error e` when `generate_content` raises `e`, `Except.ok none` when
the response has no candidates or parts, and `Except.ok (some t)` when it
yields the text `t`. -/
def generate_story_from_image (configured : Bool)
    (apiResult : Except String (Option String)) : String :=
  if configured = false then
    "Story generation unavailable due to API configuration issues."
  else
    match apiResult with
    | Except.error e => "An error occurred during story generation: " ++ e
    | Except.ok none =>
        "Could not generate a story from the image. The response was empty or malformed."
    | Except.ok (some t) => t

/-- The three failure-sentinel prefixes tested at `app.py` line 301. -/
def sentinelPrefixes : List String :=
  ["An error occurred", "Story generation unavailable", "Could not generate"]

/-- A narrative result matches one of the failure-sentinel prefixes. -/
def isSentinel (story : String) : Bool :=
  sentinelPrefixes.any (fun p => pyStartsWith story p)

/-- Embedding of the acceptance test at `app.py` line 301:
`if generated_story and not ...startswith(...) and not ... and not ...`. -/
def storyAccepted (story : String) : Bool :=
  pyTruthy story
    && !(pyStartsWith story "An error occurred")
    && !(pyStartsWith story "Story generation unavailable")
    && !(pyStartsWith story "Could not generate")

/-- Outcome of the post-generation block, `app.py` lines 301-318: which
backend the dispatcher invoked (`none` when no synthesis was attempted), the
audio value, whether `st.audio` rendered a player, whether the run crashed
with a `NameError` (line 314 reads `audio_bytes`, which is unbound when the
block at line 301 was skipped), and the diagnostics. -/
structure StoryFlowOutcome where
  dispatched : Option Backend
  audio : Option (List Nat)
  audioShown : Bool
  nameErrorCrash : Bool
  diags : List Diag
deriving DecidableEq

/-- Embedding of `app.py` lines 301-318: the narrative is accepted only when
non-empty and matching no failure-sentinel prefix; then line 307 dispatches to
ElevenLabs when the client exists and a voice is selected, else to gTTS; line
314 shows the player exactly when audio bytes came back.  When the narrative
is rejected, no synthesis is attempted and the unbound `audio_bytes` raises a
`NameError` at line 314, so no player is shown. -/
def runStoryBlock (generated_story : String) (elevenlabs_client : Option String)
    (selected_voice : Option String) (voice_settings : Option (List (String × ℚ)))
    (eenv : ElevenEnv) (genv : GttsEnv) : StoryFlowOutcome :=
  if storyAccepted generated_story then
    match elevenlabs_client, selected_voice with
    | some c, some v =>
        if v = "" then
          let o := convert_text_to_speech_gtts generated_story genv
          { dispatched := some Backend.fallback, audio := o.result,
            audioShown := o.result.isSome, nameErrorCrash := false,
            diags := o.diags ++
              (if o.result.isSome then []
               else [Diag.warning "Could not generate audio for the story."]) }
        else
          let o := convert_text_to_speech_elevenlabs generated_story v voice_settings (some c) eenv
          { dispatched := some Backend.primary, audio := o.result,
            audioShown := o.result.isSome, nameErrorCrash := false,
            diags := o.diags ++
              (if o.result.isSome then []
               else [Diag.warning "Could not generate audio for the story."]) }
    | _, _ =>
        let o := convert_text_to_speech_gtts generated_story genv
        { dispatched := some Backend.fallback, audio := o.result,
          audioShown := o.result.isSome, nameErrorCrash := false,
          diags := o.diags ++
            (if o.result.isSome then []
             else [Diag.warning "Could not generate audio for the story."]) }
  else
    { dispatched := none, audio := none, audioShown := false,
      nameErrorCrash := true, diags := [] }

/-! ## Theorems -/

/-- Claim C2: presenting a collection of voice records to the voice-catalog
resolver in any of the three response shapes (object with a `voices`
attribute, 2-tuple whose second element is the record sequence, bare
sequence) yields the same result, namely the list of extracted names
deduplicated with set semantics and sorted lexicographically ascending. -/
theorem c2_shape_invariance (recs : List VoiceRec) (fst : String) :
    voiceNamesOf (VoicesResult.response recs) = voiceNamesOf (VoicesResult.tup fst recs) ∧
    voiceNamesOf (VoicesResult.response recs) = voiceNamesOf (VoicesResult.bare recs) ∧
    voiceNamesOf (VoicesResult.response recs) = normalizeNames (extractNames recs).1 ∧
    List.Sorted (fun a b : String => a ≤ b) (voiceNamesOf (VoicesResult.response recs)) ∧
    (voiceNamesOf (VoicesResult.response recs)).Nodup ∧
    (∀ n, n ∈ voiceNamesOf (VoicesResult.response recs) ↔ n ∈ (extractNames recs).1) := by
  refine ⟨rfl, rfl, rfl, List.sorted_insertionSort _ _, ?_, fun n => ?_⟩
  · exact ((List.perm_insertionSort _ _).nodup_iff).mpr (List.nodup_dedup _)
  · show n ∈ List.insertionSort _ (extractNames recs).1.dedup ↔ _
    rw [List.mem_insertionSort, List.mem_dedup]

/-- Claim C7: if the voice-listing call raises any exception, the resolver
catches it, emits a diagnostic, and falls back to the hardcoded default voice
name Rachel, which is a usable (truthy) selection for the rest of the flow. -/
theorem c7_listing_exception_default (e : String) :
    resolveVoices (Except.error e) =
      { selected := some "Rachel", names := [],
        diags := [Diag.error ("Could not fetch or process ElevenLabs voices using client: " ++ e)] } ∧
    pyTruthyStrOpt (resolveVoices (Except.error e)).selected = true :=
  ⟨rfl, rfl⟩

/-- Claim C8: records lacking a name field are skipped, each with a per-item
diagnostic warning, and the names of all remaining well-formed records are
still extracted and returned; a partial extraction failure never aborts the
listing. -/
theorem c8_partial_extraction (recs : List VoiceRec) :
    (extractNames recs).1 = recs.filterMap VoiceRec.name ∧
    (extractNames recs).2.length = (recs.filter (fun r => r.name.isNone)).length ∧
    (∀ n, n ∈ voiceNamesOf (VoicesResult.bare recs) ↔ n ∈ recs.filterMap VoiceRec.name) := by
  have key : ∀ rs : List VoiceRec,
      (extractNames rs).1 = rs.filterMap VoiceRec.name ∧
      (extractNames rs).2.length = (rs.filter (fun r => r.name.isNone)).length := by
    intro rs
    induction rs with
    | nil => exact ⟨rfl, rfl⟩
    | cons r rs ih =>
      cases h : r.name <;>
        simp [extractNames, List.filterMap_cons, List.filter_cons, h, ih.1, ih.2]
  refine ⟨(key recs).1, (key recs).2, fun n => ?_⟩
  show n ∈ List.insertionSort _ (extractNames recs).1.dedup ↔ _
  rw [List.mem_insertionSort, List.mem_dedup, (key recs).1]

/-- Claim C1, counterexample: a run whose primary-backend startup probe fails
(key present, client constructed, `voices.get_all()` raises).  The registry
records `elevenlabs_configured = False`, yet the client handle survives, the
resolver (whose own listing call also raises) selects the default voice
Rachel, and the dispatcher sends the synthesis call to the primary backend. -/
theorem c1_counterexample :
    (initEleven { apiKey := "key1", clientInitOk := true, probeOk := false }).elevenlabs_configured
        = false ∧
    chooseBackend
        (initEleven { apiKey := "key1", clientInitOk := true, probeOk := false }).elevenlabs_client
        (resolveVoices (Except.error "connection refused")).selected = Backend.primary ∧
    (runStoryBlock "Once upon a time"
        (initEleven { apiKey := "key1", clientInitOk := true, probeOk := false }).elevenlabs_client
        (resolveVoices (Except.error "connection refused")).selected
        none
        { generateOutcome := Except.ok (GenOut.stream [[1]]),
          writeOutcome := Except.ok (), tmpName := "t.mp3" }
        { gttsOutcome := Except.ok [5] }).dispatched = some Backend.primary := by
  decide

/-- Claim C1, amended: the startup flag `elevenlabs_configured` does require
credential presence and a successful probe, but backend selection never
consults it — dispatch goes to the primary backend exactly when the client
handle exists (credential present and constructor succeeded, regardless of
probe outcome) and a voice is selected. -/
theorem c1_dispatch_ignores_probe (s : ElevenSetup) (v : Option String) :
    ((initEleven s).elevenlabs_configured = true ↔
      s.apiKey ≠ "" ∧ s.clientInitOk = true ∧ s.probeOk = true) ∧
    ((initEleven s).elevenlabs_client.isSome = true ↔
      s.apiKey ≠ "" ∧ s.clientInitOk = true) ∧
    (chooseBackend (initEleven s).elevenlabs_client v = Backend.primary ↔
      (initEleven s).elevenlabs_client.isSome = true ∧ pyTruthyStrOpt v = true) := by
  refine ⟨?_, ?_, ?_⟩
  · unfold initEleven
    by_cases hk : s.apiKey = "" <;> cases hc : s.clientInitOk <;> cases hp : s.probeOk <;>
      simp [hk, hc, hp]
  · unfold initEleven
    by_cases hk : s.apiKey = "" <;> cases hc : s.clientInitOk <;> cases hp : s.probeOk <;>
      simp [hk, hc, hp]
  · unfold chooseBackend
    by_cases hcl : (initEleven s).elevenlabs_client.isSome = true <;>
      by_cases hv : pyTruthyStrOpt v = true <;>
        simp [hcl, hv]

/-- Witness for the amended claim C1 at a concrete setup. -/
theorem c1_dispatch_ignores_probe_witness :
    ((initEleven { apiKey := "key1", clientInitOk := true, probeOk := false }).elevenlabs_configured = true ↔
      ("key1" : String) ≠ "" ∧ True ∧ False) ∧
    ((initEleven { apiKey := "key1", clientInitOk := true, probeOk := false }).elevenlabs_client.isSome = true ↔
      ("key1" : String) ≠ "" ∧ True) := by
  have h := c1_dispatch_ignores_probe { apiKey := "key1", clientInitOk := true, probeOk := false }
    (some "Rachel")
  constructor
  · rw [h.1]; simp
  · rw [h.2.1]; simp

/-- The three failure outputs of `generate_story_from_image` all match a
failure-sentinel prefix, so the acceptance test at line 301 rejects them. -/
theorem generate_story_failures_match_sentinels (e : String) :
    isSentinel (generate_story_from_image false (Except.ok (some "t"))) = true ∧
    isSentinel (generate_story_from_image true (Except.error e)) = true ∧
    isSentinel (generate_story_from_image true (Except.ok none)) = true := by
  refine ⟨by decide, ?_, by decide⟩
  have hpre : pyStartsWith ("An error occurred during story generation: " ++ e)
      "An error occurred" = true := by
    unfold pyStartsWith
    rw [List.isPrefixOf_iff_prefix]
    have h1 : ("An error occurred" : String).data <+:
        ("An error occurred during story generation: " : String).data := by decide
    have h2 : ("An error occurred during story generation: " : String).data <+:
        ("An error occurred during story generation: " ++ e).data := by
      rw [String.data_append]
      exact List.prefix_append _ _
    exact h1.trans h2
  simp [generate_story_from_image, isSentinel, sentinelPrefixes, hpre]

/-- Claim C3: whenever the narrative result matches one of the three
failure-sentinel prefixes, the dispatcher invokes neither synthesis backend
and the UI never shows an audio player. -/
theorem c3_sentinel_no_synthesis (story : String) (client : Option String)
    (voice : Option String) (vs : Option (List (String × ℚ)))
    (eenv : ElevenEnv) (genv : GttsEnv) (h : isSentinel story = true) :
    (runStoryBlock story client voice vs eenv genv).dispatched = none ∧
    (runStoryBlock story client voice vs eenv genv).audioShown = false := by
  have hacc : storyAccepted story = false := by
    simp only [isSentinel, sentinelPrefixes, List.any_cons, List.any_nil,
      Bool.or_eq_true, Bool.or_false] at h
    unfold storyAccepted
    rcases h with h | h | h <;> simp [h]
  unfold runStoryBlock
  rw [hacc]
  exact ⟨rfl, rfl⟩

/-- Witness for claim C3 at a concrete sentinel narrative. -/
theorem c3_sentinel_no_synthesis_witness :
    (runStoryBlock "Story generation unavailable due to API configuration issues."
        (some "k") (some "Rachel") none
        { generateOutcome := Except.ok (GenOut.stream [[1]]),
          writeOutcome := Except.ok (), tmpName := "t.mp3" }
        { gttsOutcome := Except.ok [5] }).dispatched = none ∧
    (runStoryBlock "Story generation unavailable due to API configuration issues."
        (some "k") (some "Rachel") none
        { generateOutcome := Except.ok (GenOut.stream [[1]]),
          writeOutcome := Except.ok (), tmpName := "t.mp3" }
        { gttsOutcome := Except.ok [5] }).audioShown = false :=
  c3_sentinel_no_synthesis _ _ _ _ _ _ (by decide)

/-- Claim C4: on a successful primary-backend synthesis call with Tone
Parameters supplied (the slider dict with keys `stability` and `clarity`,
slider values lying in `[0, 1]`), the settings payload sent maps the
`stability` input to the `stability` field and the `clarity` input to the
`similarity_boost` field verbatim, and both payload values lie in `[0, 1]`. -/
theorem c4_settings_mapping (text voice k tmp : String) (s c : ℚ)
    (chunks : List (List Nat))
    (ht : text ≠ "") (hs0 : 0 ≤ s) (hs1 : s ≤ 1) (hc0 : 0 ≤ c) (hc1 : c ≤ 1) :
    (convert_text_to_speech_elevenlabs text voice
        (some [("stability", s), ("clarity", c)]) (some k)
        { generateOutcome := Except.ok (GenOut.stream chunks),
          writeOutcome := Except.ok (), tmpName := tmp }).result = some chunks.flatten ∧
    (convert_text_to_speech_elevenlabs text voice
        (some [("stability", s), ("clarity", c)]) (some k)
        { generateOutcome := Except.ok (GenOut.stream chunks),
          writeOutcome := Except.ok (), tmpName := tmp }).sentParams =
      some { text := text, voice := voice, model := "eleven_multilingual_v2",
             voice_settings := some { stability := s, similarity_boost := c } } ∧
    0 ≤ s ∧ s ≤ 1 ∧ 0 ≤ c ∧ c ≤ 1 := by
  have hg : ¬(text = "" ∨ (some k : Option String) = none) := by simp [ht]
  refine ⟨?_, ?_, hs0, hs1, hc0, hc1⟩ <;>
    simp [convert_text_to_speech_elevenlabs, hg, ht, buildGenerateParams, List.lookup]

/-- Witness for claim C4 at concrete inputs. -/
theorem c4_settings_mapping_witness :
    (convert_text_to_speech_elevenlabs "Once upon a time" "Aria"
        (some [("stability", (0.3 : ℚ)), ("clarity", (0.9 : ℚ))]) (some "k")
        { generateOutcome := Except.ok (GenOut.stream [[1], [2]]),
          writeOutcome := Except.ok (), tmpName := "t.mp3" }).result = some [[1], [2]].flatten ∧
    (convert_text_to_speech_elevenlabs "Once upon a time" "Aria"
        (some [("stability", (0.3 : ℚ)), ("clarity", (0.9 : ℚ))]) (some "k")
        { generateOutcome := Except.ok (GenOut.stream [[1], [2]]),
          writeOutcome := Except.ok (), tmpName := "t.mp3" }).sentParams =
      some { text := "Once upon a time", voice := "Aria", model := "eleven_multilingual_v2",
             voice_settings := some { stability := (0.3 : ℚ), similarity_boost := (0.9 : ℚ) } } ∧
    (0 : ℚ) ≤ 0.3 ∧ (0.3 : ℚ) ≤ 1 ∧ (0 : ℚ) ≤ 0.9 ∧ (0.9 : ℚ) ≤ 1 :=
  c4_settings_mapping "Once upon a time" "Aria" "k" "t.mp3" 0.3 0.9 [[1], [2]]
    (by decide) (by norm_num) (by norm_num) (by norm_num) (by norm_num)

/-- Claim C5: neither synthesis path ever lets an exception escape
(`raised = none` on every input and environment), and whenever the backend
call raises — the ElevenLabs `generate` call, the temp-file write after a
successful stream, or the gTTS engine — the exception is caught, a diagnostic
is surfaced, and the function returns no-result. -/
theorem c5_exceptions_caught (text voice : String) (vs : Option (List (String × ℚ)))
    (client : Option String) (eenv : ElevenEnv) (genv : GttsEnv) :
    (convert_text_to_speech_elevenlabs text voice vs client eenv).raised = none ∧
    (convert_text_to_speech_gtts text genv).raised = none ∧
    (∀ e, text ≠ "" → client ≠ none → eenv.generateOutcome = Except.error e →
      (convert_text_to_speech_elevenlabs text voice vs client eenv).result = none ∧
      (convert_text_to_speech_elevenlabs text voice vs client eenv).diags ≠ []) ∧
    (∀ e chunks, text ≠ "" → client ≠ none →
      eenv.generateOutcome = Except.ok (GenOut.stream chunks) →
      eenv.writeOutcome = Except.error e →
      (convert_text_to_speech_elevenlabs text voice vs client eenv).result = none ∧
      (convert_text_to_speech_elevenlabs text voice vs client eenv).diags ≠ []) ∧
    (∀ e, text ≠ "" → genv.gttsOutcome = Except.error e →
      (convert_text_to_speech_gtts text genv).result = none ∧
      (convert_text_to_speech_gtts text genv).diags ≠ []) := by
  obtain ⟨go, wo, tn⟩ := eenv
  obtain ⟨g⟩ := genv
  refine ⟨?_, ?_, ?_, ?_, ?_⟩
  · by_cases h : text = "" ∨ client = none
    · simp [convert_text_to_speech_elevenlabs, h]
    · cases go with
      | error e => simp [convert_text_to_speech_elevenlabs, h]
      | ok out =>
        cases out with
        | notIterable => simp [convert_text_to_speech_elevenlabs, h]
        | stream chunks =>
          cases wo <;> simp [convert_text_to_speech_elevenlabs, h]
  · by_cases h : text = ""
    · simp [convert_text_to_speech_gtts, h]
    · cases g <;> simp [convert_text_to_speech_gtts, h]
  · intro e ht hc hgo
    cases hgo
    have h : ¬(text = "" ∨ client = none) := by simp [ht, hc]
    constructor <;> simp [convert_text_to_speech_elevenlabs, h]
  · intro e chunks ht hc hgo hwo
    cases hgo
    cases hwo
    have h : ¬(text = "" ∨ client = none) := by simp [ht, hc]
    constructor <;> simp [convert_text_to_speech_elevenlabs, h]
  · intro e ht hg
    cases hg
    constructor <;> simp [convert_text_to_speech_gtts, ht]

/-- Witness for claim C5: concrete runs where each modelled raise site fires,
all yielding no-result with a surfaced diagnostic and no escaping exception. -/
theorem c5_exceptions_caught_witness :
    (convert_text_to_speech_elevenlabs "Once" "Rachel" none (some "k")
      { generateOutcome := Except.error "quota exceeded",
        writeOutcome := Except.ok (), tmpName := "t.mp3" }).result = none ∧
    (convert_text_to_speech_elevenlabs "Once" "Rachel" none (some "k")
      { generateOutcome := Except.error "quota exceeded",
        writeOutcome := Except.ok (), tmpName := "t.mp3" }).diags ≠ [] ∧
    (convert_text_to_speech_elevenlabs "Once" "Rachel" none (some "k")
      { generateOutcome := Except.error "quota exceeded",
        writeOutcome := Except.ok (), tmpName := "t.mp3" }).raised = none ∧
    (convert_text_to_speech_gtts "Once"
      { gttsOutcome := Except.error "no network" }).result = none ∧
    (convert_text_to_speech_gtts "Once"
      { gttsOutcome := Except.error "no network" }).raised = none := by
  have h := c5_exceptions_caught "Once" "Rachel" none (some "k")
    { generateOutcome := Except.error "quota exceeded",
      writeOutcome := Except.ok (), tmpName := "t.mp3" }
    { gttsOutcome := Except.error "no network" }
  have h3 := h.2.2.1 "quota exceeded" (by decide) (by simp) rfl
  have h5 := h.2.2.2.2 "no network" (by decide) rfl
  exact ⟨h3.1, h3.2, h.1, h5.1, h.2.1⟩

/-- Claim C6: with an empty text input, both synthesis paths return no-result
without ever invoking their backend. -/
theorem c6_empty_text (voice : String) (vs : Option (List (String × ℚ)))
    (client : Option String) (eenv : ElevenEnv) (genv : GttsEnv) :
    (convert_text_to_speech_elevenlabs "" voice vs client eenv).result = none ∧
    (convert_text_to_speech_elevenlabs "" voice vs client eenv).generateCalled = false ∧
    (convert_text_to_speech_gtts "" genv).result = none ∧
    (convert_text_to_speech_gtts "" genv).engineCalled = false := by
  refine ⟨?_, ?_, rfl, rfl⟩ <;> simp [convert_text_to_speech_elevenlabs]

/-- Claim C9, counterexample: a primary-backend execution in which `generate`
returns a stream but the write inside the `NamedTemporaryFile` block raises.
The function still returns no-result normally (the exception is caught), yet
the temporary file created with `delete=False` is never unlinked and remains
on disk after the function returns. -/
theorem c9_counterexample :
    (convert_text_to_speech_elevenlabs "Once upon a time" "Rachel" none (some "k")
      { generateOutcome := Except.ok (GenOut.stream [[1, 2]]),
        writeOutcome := Except.error "disk full", tmpName := "tmp123.mp3" }).tempLive
      = ["tmp123.mp3"] ∧
    (convert_text_to_speech_elevenlabs "Once upon a time" "Rachel" none (some "k")
      { generateOutcome := Except.ok (GenOut.stream [[1, 2]]),
        writeOutcome := Except.error "disk full", tmpName := "tmp123.mp3" }).raised = none := by
  decide

/-- Claim C9, amended: the staged temporary file is removed before return on
the success path and on every failure occurring before the staging block; a
file is left on disk if and only if the text was non-empty, the client
existed, `generate` returned an iterable stream, and the write inside the
staging block raised — and in that single case the leftover is exactly the
staged file. -/
theorem c9_tempfile_cleanup (text voice : String) (vs : Option (List (String × ℚ)))
    (client : Option String) (env : ElevenEnv) :
    ((convert_text_to_speech_elevenlabs text voice vs client env).tempLive ≠ [] ↔
      (text ≠ "" ∧ client ≠ none ∧
       (∃ chunks, env.generateOutcome = Except.ok (GenOut.stream chunks)) ∧
       (∃ e, env.writeOutcome = Except.error e))) ∧
    ((convert_text_to_speech_elevenlabs text voice vs client env).tempLive = [] ∨
      (convert_text_to_speech_elevenlabs text voice vs client env).tempLive = [env.tmpName]) := by
  obtain ⟨go, wo, tn⟩ := env
  by_cases h : text = "" ∨ client = none
  · constructor
    · simp [convert_text_to_speech_elevenlabs, h]
      tauto
    · simp [convert_text_to_speech_elevenlabs, h]
  · push_neg at h
    cases go with
    | error e =>
      constructor
      · simp [convert_text_to_speech_elevenlabs, h.1, h.2]
      · simp [convert_text_to_speech_elevenlabs, h.1, h.2]
    | ok out =>
      cases out with
      | notIterable =>
        constructor
        · simp [convert_text_to_speech_elevenlabs, h.1, h.2]
        · simp [convert_text_to_speech_elevenlabs, h.1, h.2]
      | stream chunks =>
        cases wo with
        | error e =>
          constructor
          · simp [convert_text_to_speech_elevenlabs, h.1, h.2]
          · simp [convert_text_to_speech_elevenlabs, h.1, h.2]
        | ok u =>
          constructor
          · simp [convert_text_to_speech_elevenlabs, h.1, h.2]
          · simp [convert_text_to_speech_elevenlabs, h.1, h.2]

/-- Claim C10, counterexample: calling the primary path with non-empty text,
a configured client and an empty settings mapping — a mapping omitting both
the `stability` and the `clarity` key.  An empty dict is falsy in Python, so
the guard at line 117 skips settings construction entirely: the call succeeds
but the payload sent carries no `voice_settings` at all, rather than one with
the default values. -/
theorem c10_counterexample :
    (convert_text_to_speech_elevenlabs "Once upon a time" "Rachel" (some []) (some "k")
      { generateOutcome := Except.ok (GenOut.stream [[7]]),
        writeOutcome := Except.ok (), tmpName := "t.mp3" }).result = some [7] ∧
    (convert_text_to_speech_elevenlabs "Once upon a time" "Rachel" (some []) (some "k")
      { generateOutcome := Except.ok (GenOut.stream [[7]]),
        writeOutcome := Except.ok (), tmpName := "t.mp3" }).sentParams =
      some { text := "Once upon a time", voice := "Rachel",
             model := "eleven_multilingual_v2", voice_settings := none } := by
  decide

/-- Claim C10, amended: when the primary path is called with non-empty text,
a configured client and a non-empty settings mapping, the payload sent carries
a settings object whose `stability` field is the mapping entry for
`"stability"` (default `0.5` when the key is absent) and whose
`similarity_boost` field is the entry for `"clarity"` (default `0.75` when
the key is absent). -/
theorem c10_missing_keys_defaults (text voice k tmp : String)
    (d : List (String × ℚ)) (go : Except String GenOut) (wo : Except String Unit)
    (ht : text ≠ "") (hd : d ≠ []) :
    (convert_text_to_speech_elevenlabs text voice (some d) (some k)
        { generateOutcome := go, writeOutcome := wo, tmpName := tmp }).sentParams =
      some (buildGenerateParams text voice (some d)) ∧
    (buildGenerateParams text voice (some d)).voice_settings =
      some { stability := (d.lookup "stability").getD (0.5 : ℚ),
             similarity_boost := (d.lookup "clarity").getD (0.75 : ℚ) } ∧
    (d.lookup "stability" = none →
      (buildGenerateParams text voice (some d)).voice_settings =
        some { stability := (0.5 : ℚ),
               similarity_boost := (d.lookup "clarity").getD (0.75 : ℚ) }) ∧
    (d.lookup "clarity" = none →
      (buildGenerateParams text voice (some d)).voice_settings =
        some { stability := (d.lookup "stability").getD (0.5 : ℚ),
               similarity_boost := (0.75 : ℚ) }) := by
  have hg : ¬(text = "" ∨ (some k : Option String) = none) := by simp [ht]
  refine ⟨?_, ?_, ?_, ?_⟩
  · cases go with
    | error e => simp [convert_text_to_speech_elevenlabs, hg, ht]
    | ok out =>
      cases out with
      | notIterable => simp [convert_text_to_speech_elevenlabs, hg, ht]
      | stream chunks => cases wo <;> simp [convert_text_to_speech_elevenlabs, hg, ht]
  · simp [buildGenerateParams, hd]
  · intro hs; simp [buildGenerateParams, hd, hs]
  · intro hc; simp [buildGenerateParams, hd, hc]

/-- Witness for the amended claim C10 at a mapping that omits both keys. -/
theorem c10_missing_keys_defaults_witness :
    (convert_text_to_speech_elevenlabs "Once" "Rachel" (some [("other", (0 : ℚ))]) (some "k")
        { generateOutcome := Except.ok (GenOut.stream [[7]]),
          writeOutcome := Except.ok (), tmpName := "t.mp3" }).sentParams =
      some (buildGenerateParams "Once" "Rachel" (some [("other", (0 : ℚ))])) ∧
    (buildGenerateParams "Once" "Rachel" (some [("other", (0 : ℚ))])).voice_settings =
      some { stability := (0.5 : ℚ), similarity_boost := (0.75 : ℚ) } := by
  have h := c10_missing_keys_defaults "Once" "Rachel" "k" "t.mp3" [("other", (0 : ℚ))]
    (Except.ok (GenOut.stream [[7]])) (Except.ok ()) (by decide) (by simp)
  refine ⟨h.1, ?_⟩
  have h3 := h.2.2.1 (by rfl)
  rw [h3]
  rfl
